import Mathlib

/-!
Formal model of the sLLM log-ingestion and classification pipeline
(`data_processor.py`, `fine_tuning.py`, `kafka_consumer.py`).

Raw records are shallowly embedded as structures whose fields are `Option`s,
mirroring Python dict access: `d.get(k)` yields `none` when the key is absent
and `d.get(k, default)` is modelled by `Option.getD`.  External collaborators
(the scikit-learn K-means clustering call, the pandas hourly resampling, the
Elasticsearch queries, the Ollama adaptation step and the wall clock) are
modelled as oracle parameters; an oracle returning `none` / `.error` models
the Python call raising an exception that the source catches.
-/

/-- Python rendering of an optional string field inside an f-string:
a missing key prints as `None`. -/
def pyStr : Option String → String
  | some s => s
  | none => "None"

/-- Python rendering of an optional integer field inside an f-string. -/
def pyStrInt : Option Int → String
  | some n => toString n
  | none => "None"

/-- Python `d.get(key, 0)` for a numeric field. -/
def pyGetInt (o : Option Int) : Int := o.getD 0

/-- Python `s.rstrip(", ")`: drop every trailing comma or blank. -/
def py_rstrip_comma_space (s : String) : String :=
  String.mk ((s.data.reverse.dropWhile (fun c => c == ',' || c == ' ')).reverse)

/-- A produced training example: the dicts appended to `result` carry either
the anomaly shape (`task_type`, `log_text`, `anomaly_status`,
`detected_issues`, `explanation`) or the summary shape (`task_type`,
`original_text`, `summary`). -/
inductive TrainingExample where
  | anomaly (log_text : String) (anomaly_status : String)
      (detected_issues : List String) (explanation : String)
  | summary (original_text : String) (summary : String)
deriving DecidableEq

/-- The `task_type` discriminator carried by every produced example. -/
def TrainingExample.task_type : TrainingExample → String
  | .anomaly _ _ _ _ => "anomaly"
  | .summary _ _ => "summary"

/-- The `anomaly_status` field (absent on summary examples). -/
def TrainingExample.anomaly_status : TrainingExample → Option String
  | .anomaly _ s _ _ => some s
  | .summary _ _ => none

/-- The `detected_issues` field (absent on summary examples). -/
def TrainingExample.detected_issues : TrainingExample → List String
  | .anomaly _ _ i _ => i
  | .summary _ _ => []

/-- Boolean test for the summary variant. -/
def is_summary (e : TrainingExample) : Bool := e.task_type == "summary"

/-- Boolean test for an anomaly example whose issue list is exactly `[lbl]`. -/
def has_issue (lbl : String) (e : TrainingExample) : Bool :=
  e.detected_issues == [lbl]

/-! Application logs (`_process_application_logs`). -/

/-- A raw application-log record; every field is optional, as in the dicts
returned by the backend. -/
structure AppLog where
  timestamp : Option String
  service : Option String
  log_level : Option String
  message : Option String
  stack_trace : Option String
deriving DecidableEq

/-- The `timestamp service log_level message` line shared by the error and
warning branches. -/
def app_log_line (log : AppLog) : String :=
  pyStr log.timestamp ++ " " ++ pyStr log.service ++ " " ++
    pyStr log.log_level ++ " " ++ pyStr log.message

/-- One ERROR record to one anomaly example; the stack trace is appended on
its own line when present and truthy. -/
def app_error_example (log : AppLog) : TrainingExample :=
  let base := app_log_line log
  let text := match log.stack_trace with
    | some st => if st = "" then base else base ++ "\n" ++ st
    | none => base
  .anomaly text "critical" ["오류 발생"]
    ("서비스 \x27" ++ pyStr log.service ++ "\x27에서 오류가 발생했습니다: " ++
      pyStr log.message)

/-- One WARNING record to one anomaly example (no stack trace). -/
def app_warning_example (log : AppLog) : TrainingExample :=
  .anomaly (app_log_line log) "warning" ["경고 발생"]
    ("서비스 \x27" ++ pyStr log.service ++ "\x27에서 경고가 발생했습니다: " ++
      pyStr log.message)

/-- The message list handed to the vectorizer:
`[log.get('message', '') for log in info_logs if log.get('message')]`,
keeping only present, non-empty messages. -/
def app_messages (info_logs : List AppLog) : List AppLog :=
  info_logs.filter (fun log => match log.message with
    | some m => !(m == "")
    | none => false)

/-- The message text of a record, with the empty-string default. -/
def app_message_text (log : AppLog) : String := log.message.getD ""

/-- The requested cluster count `n_clusters = min(5, len(messages) // 2)`. -/
def app_n_clusters (messages : List String) : Nat := min 5 (messages.length / 2)

/-- Oracle for `TfidfVectorizer.fit_transform` plus `KMeans.fit_predict`
(seeded with `random_state=42`): given the message list and the requested
cluster count it returns one label per message, or `none` when the library
call raises (the `except` branch of the source). -/
def ClusterOracle : Type := List String → Nat → Option (List Nat)

/-- The members of one cluster:
`[info_logs[i] for i, c in enumerate(clusters) if c == cluster_id]`,
pairing label `i` with `info_logs[i]`. -/
def cluster_members (clusters : List Nat) (info_logs : List AppLog)
    (cluster_id : Nat) : List AppLog :=
  (clusters.zip info_logs).filterMap
    (fun ci => if ci.1 = cluster_id then some ci.2 else none)

/-- The summary example for one cluster, or `none` when the cluster is
empty. -/
def app_cluster_summary_for (info_logs : List AppLog) (clusters : List Nat)
    (cluster_id : Nat) : Option TrainingExample :=
  let cluster_logs := cluster_members clusters info_logs cluster_id
  match cluster_logs with
  | [] => none
  | c0 :: _ => some (.summary
      (String.intercalate "\n" ((cluster_logs.take 10).map (fun log =>
        pyStr log.timestamp ++ " " ++ pyStr log.service ++ " " ++
          pyStr log.message)))
      ("서비스 \x27" ++ pyStr c0.service ++ "\x27의 활동 요약: " ++
        toString cluster_logs.length ++
        "개의 유사한 로그 메시지가 발생했습니다."))

/-- The body of the INFO-clustering `try` block: vectorize, cluster into
`n_clusters` groups, and emit one summary example per non-empty cluster. -/
def app_cluster_summaries (kmeans : ClusterOracle) (info_logs : List AppLog) :
    List TrainingExample :=
  let messages := (app_messages info_logs).map app_message_text
  if 10 ≤ messages.length then
    match kmeans messages (app_n_clusters messages) with
    | none => []
    | some clusters =>
      (List.range (app_n_clusters messages)).filterMap
        (app_cluster_summary_for info_logs clusters)
  else []

/-- `_process_application_logs`: ERROR records, then WARNING records, then
(when at least ten INFO records exist) the clustered summaries. -/
def _process_application_logs (kmeans : ClusterOracle) (logs : List AppLog) :
    List TrainingExample :=
  if logs.isEmpty then []
  else
    let error_logs := logs.filter (fun log => log.log_level == some "ERROR")
    let warning_logs := logs.filter (fun log => log.log_level == some "WARNING")
    let info_logs := logs.filter (fun log => log.log_level == some "INFO")
    (error_logs.map app_error_example) ++
      (warning_logs.map app_warning_example) ++
      (if 10 ≤ info_logs.length then app_cluster_summaries kmeans info_logs
       else [])

/-! Nginx access logs (`_process_nginx_logs`). -/

/-- A raw access-log record. -/
structure NginxLog where
  timestamp : Option String
  client_ip : Option String
  request_method : Option String
  request_path : Option String
  status_code : Option Int
  response_time : Option Int
deriving DecidableEq

/-- The rendered access-log line used by every anomaly branch. -/
def nginx_log_text (log : NginxLog) : String :=
  pyStr log.timestamp ++ " " ++ pyStr log.client_ip ++ " " ++
    pyStr log.request_method ++ " " ++ pyStr log.request_path ++ " " ++
    pyStrInt log.status_code ++ " " ++ pyStrInt log.response_time ++ "ms"

/-- One status `>= 500` record to one critical anomaly example. -/
def nginx_error_example (log : NginxLog) : TrainingExample :=
  .anomaly (nginx_log_text log) "critical"
    ["서버 오류 " ++ pyStrInt log.status_code]
    ("서버 오류 " ++ pyStrInt log.status_code ++ "가 발생했습니다. 요청 경로: " ++
      pyStr log.request_path)

/-- One 4xx record to one warning anomaly example. -/
def nginx_warning_example (log : NginxLog) : TrainingExample :=
  .anomaly (nginx_log_text log) "warning"
    ["클라이언트 오류 " ++ pyStrInt log.status_code]
    ("클라이언트 오류 " ++ pyStrInt log.status_code ++
      "가 발생했습니다. 요청 경로: " ++ pyStr log.request_path)

/-- One slow (response_time over 1000 ms) success record to one warning
anomaly example. -/
def nginx_slow_example (log : NginxLog) : TrainingExample :=
  .anomaly (nginx_log_text log) "warning" ["응답 시간 지연"]
    ("응답 시간이 " ++ pyStrInt log.response_time ++
      "ms로 지연되었습니다. 요청 경로: " ++ pyStr log.request_path)

/-- Increment the count of `p` in an insertion-ordered association list,
mirroring `path_counts[path] = path_counts.get(path, 0) + 1` on a dict. -/
def bump_count : List (String × Nat) → String → List (String × Nat)
  | [], p => [(p, 1)]
  | (k, c) :: rest, p =>
    if k = p then (k, c + 1) :: rest else (k, c) :: bump_count rest p

/-- Per-path request counts over the success records, in first-seen order;
records with a missing or empty path are skipped (`if path:`). -/
def path_counts (success_logs : List NginxLog) : List (String × Nat) :=
  success_logs.foldl (fun acc log =>
    let path := log.request_path.getD ""
    if path = "" then acc else bump_count acc path) []

/-- Stable insertion into a list sorted by descending count, matching the
stability of Python `sorted(..., key=lambda x: x[1], reverse=True)`. -/
def insert_desc (x : String × Nat) : List (String × Nat) → List (String × Nat)
  | [] => [x]
  | y :: ys => if y.2 ≤ x.2 then x :: y :: ys else y :: insert_desc x ys

/-- Stable sort by descending count. -/
def sorted_desc (l : List (String × Nat)) : List (String × Nat) :=
  l.foldr insert_desc []

/-- The five most requested paths. -/
def top_paths (success_logs : List NginxLog) : List (String × Nat) :=
  (sorted_desc (path_counts success_logs)).take 5

/-- The traffic-summary branch: runs when success records exist and emits a
single summary example when `top_paths` is non-empty. -/
def nginx_traffic_summary (success_logs : List NginxLog) :
    List TrainingExample :=
  if success_logs.isEmpty then []
  else
    let tp := top_paths success_logs
    if tp.isEmpty then []
    else
      [ .summary
          ("웹 트래픽 로그:\n" ++
            String.join ((success_logs.take 20).map
              (fun log => nginx_log_text log ++ "\n")))
          (py_rstrip_comma_space
            ("웹 트래픽 요약: 총 " ++ toString success_logs.length ++
              "개의 성공적인 요청이 있었습니다. " ++ "가장 많이 요청된 경로: " ++
              String.join (tp.map (fun pc =>
                pc.1 ++ " (" ++ toString pc.2 ++ "회), ")))) ]

/-- `_process_nginx_logs`: 5xx anomalies, then 4xx anomalies, then slow
success requests, then the traffic summary. -/
def _process_nginx_logs (logs : List NginxLog) : List TrainingExample :=
  if logs.isEmpty then []
  else
    let error_logs := logs.filter (fun log =>
      decide (500 ≤ pyGetInt log.status_code))
    let warning_logs := logs.filter (fun log =>
      decide (400 ≤ pyGetInt log.status_code) &&
        decide (pyGetInt log.status_code < 500))
    let success_logs := logs.filter (fun log =>
      decide (200 ≤ pyGetInt log.status_code) &&
        decide (pyGetInt log.status_code < 400))
    let slow_logs := success_logs.filter (fun log =>
      decide (1000 < pyGetInt log.response_time))
    (error_logs.map nginx_error_example) ++
      (warning_logs.map nginx_warning_example) ++
      (slow_logs.map nginx_slow_example) ++
      nginx_traffic_summary success_logs

/-! System metrics (`_process_system_metrics`). -/

/-- A raw system-metric record. -/
structure Metric where
  timestamp : Option String
  host : Option String
  cpu_usage : Option Int
  memory_usage : Option Int
  disk_usage : Option Int
deriving DecidableEq

/-- `metric.get('host', 'unknown')`. -/
def metric_host (m : Metric) : String := m.host.getD "unknown"

/-- Append a record to its host group, mirroring
`host_metrics[host].append(metric)` on an insertion-ordered dict. -/
def insert_host :
    List (String × List Metric) → String → Metric → List (String × List Metric)
  | [], h, m => [(h, [m])]
  | (k, v) :: rest, h, m =>
    if k = h then (k, v ++ [m]) :: rest else (k, v) :: insert_host rest h m

/-- Group the batch by host, preserving first-seen host order and per-host
record order. -/
def host_metrics (metrics : List Metric) : List (String × List Metric) :=
  metrics.foldl (fun acc m => insert_host acc (metric_host m) m) []

/-- The rendered metric line used by the anomaly branches. -/
def metric_log_text (host : String) (m : Metric) : String :=
  pyStr m.timestamp ++ " " ++ host ++ " CPU: " ++ pyStrInt m.cpu_usage ++
    "% Memory: " ++ pyStrInt m.memory_usage ++ "% Disk: " ++
    pyStrInt m.disk_usage ++ "%"

/-- One cpu_usage over 80 record to one warning anomaly example. -/
def metric_cpu_example (host : String) (m : Metric) : TrainingExample :=
  .anomaly (metric_log_text host m) "warning" ["CPU 사용량 높음"]
    ("호스트 \x27" ++ host ++ "\x27의 CPU 사용량이 " ++ pyStrInt m.cpu_usage ++
      "%로 높습니다.")

/-- One memory_usage over 90 record to one critical anomaly example. -/
def metric_memory_example (host : String) (m : Metric) : TrainingExample :=
  .anomaly (metric_log_text host m) "critical" ["메모리 사용량 높음"]
    ("호스트 \x27" ++ host ++ "\x27의 메모리 사용량이 " ++
      pyStrInt m.memory_usage ++ "%로 매우 높습니다.")

/-- One disk_usage over 85 record to one warning anomaly example. -/
def metric_disk_example (host : String) (m : Metric) : TrainingExample :=
  .anomaly (metric_log_text host m) "warning" ["디스크 사용량 높음"]
    ("호스트 \x27" ++ host ++ "\x27의 디스크 사용량이 " ++
      pyStrInt m.disk_usage ++ "%로 높습니다.")

/-- Oracle for the pandas `to_datetime` / `resample('H').mean()` step and the
`{:.1f}` float formatting: it returns the three formatted hourly averages
(cpu, memory, disk), or `none` when the step raises, the frame has no
timestamp column, or the hourly table is empty — all the cases in which the
source skips the summary for that host. -/
def ResampleOracle : Type := List Metric → Option (String × String × String)

/-- The per-host performance-summary branch, guarded by a group size of at
least ten records. -/
def metric_summary (resample : ResampleOracle) (host : String)
    (host_data : List Metric) : List TrainingExample :=
  if 10 ≤ host_data.length then
    match resample host_data with
    | none => []
    | some avgs =>
      [ .summary
          ("호스트 \x27" ++ host ++ "\x27 시스템 메트릭:\n" ++
            String.join ((host_data.take 20).map (fun m =>
              pyStr m.timestamp ++ " CPU: " ++ pyStrInt m.cpu_usage ++
                "% Memory: " ++ pyStrInt m.memory_usage ++ "% Disk: " ++
                pyStrInt m.disk_usage ++ "%\n")))
          ("호스트 \x27" ++ host ++ "\x27 시스템 성능 요약: 평균 CPU 사용량 " ++
            avgs.1 ++ "%, 평균 메모리 사용량 " ++ avgs.2.1 ++
            "%, 평균 디스크 사용량 " ++ avgs.2.2 ++ "%. 총 " ++
            toString host_data.length ++ "개의 메트릭이 수집되었습니다.") ]
  else []

/-- The per-host body of the loop over `host_metrics.items()`: cpu anomalies,
memory anomalies, disk anomalies, then the optional summary. -/
def process_host_metrics (resample : ResampleOracle) (host : String)
    (host_data : List Metric) : List TrainingExample :=
  ((host_data.filter (fun m => decide (80 < pyGetInt m.cpu_usage))).map
      (metric_cpu_example host)) ++
    ((host_data.filter (fun m => decide (90 < pyGetInt m.memory_usage))).map
      (metric_memory_example host)) ++
    ((host_data.filter (fun m => decide (85 < pyGetInt m.disk_usage))).map
      (metric_disk_example host)) ++
    metric_summary resample host host_data

/-- `_process_system_metrics`: group by host and process hosts in order. -/
def _process_system_metrics (resample : ResampleOracle)
    (metrics : List Metric) : List TrainingExample :=
  if metrics.isEmpty then []
  else (host_metrics metrics).flatMap
    (fun hd => process_host_metrics resample hd.1 hd.2)

/-! Pull cycle (`process_new_logs`, `get_latest_processed_data`). -/

/-- Oracles for the three Elasticsearch fetches over a `[start, end)` window;
`.error` models the backend raising, which each `_fetch_*` helper catches and
turns into an empty list. -/
structure FetchEnv where
  fetch_application_logs : Nat → Nat → Except Unit (List AppLog)
  fetch_nginx_logs : Nat → Nat → Except Unit (List NginxLog)
  fetch_system_metrics : Nat → Nat → Except Unit (List Metric)

/-- The catch-all in each `_fetch_*` helper: a backend error degrades to an
empty record list. -/
def fetched {α : Type} : Except Unit (List α) → List α
  | .ok l => l
  | .error _ => []

/-- The processor state: the Elasticsearch client (or `none` on failed
connection), the three per-source watermarks, and the persisted
`processed_data.json` contents (`none` when the file does not exist). -/
structure ProcState where
  es_client_ok : Bool
  wm_application_logs : Nat
  wm_nginx_access : Nat
  wm_system_metrics : Nat
  processed_data : Option (List TrainingExample)
deriving DecidableEq

/-- `get_latest_processed_data`: the persisted latest result set, or an empty
list when nothing was ever persisted. -/
def get_latest_processed_data (st : ProcState) : List TrainingExample :=
  st.processed_data.getD []

/-- `process_new_logs`: fetch the three windows ending at `now`, advance all
three watermarks to `now`, classify, persist the combined set only when it is
non-empty, and return it. -/
def process_new_logs (env : FetchEnv) (kmeans : ClusterOracle)
    (resample : ResampleOracle) (st : ProcState) (now : Nat) :
    List TrainingExample × ProcState :=
  if st.es_client_ok then
    let app_logs := fetched (env.fetch_application_logs st.wm_application_logs now)
    let nginx_logs := fetched (env.fetch_nginx_logs st.wm_nginx_access now)
    let system_metrics := fetched (env.fetch_system_metrics st.wm_system_metrics now)
    let st1 : ProcState :=
      { st with
        wm_application_logs := now
        wm_nginx_access := now
        wm_system_metrics := now }
    let all_data :=
      _process_application_logs kmeans app_logs ++
        _process_nginx_logs nginx_logs ++
        _process_system_metrics resample system_metrics
    let st2 := if all_data.isEmpty then st1
      else { st1 with processed_data := some all_data }
    (all_data, st2)
  else ([], st)

/-! Fine-tuning orchestration (`fine_tune`, `get_last_fine_tuning_time`). -/

/-- An input example as `fine_tune` sees it: only the `task_type` key is ever
read, and it may be absent. -/
structure FTExample where
  task_type : Option String
deriving DecidableEq

/-- A `fine_tuning_history.json` entry; loaded entries may lack any key. -/
structure HistoryEntry where
  timestamp : Option String
  task_type : Option String
  data_count : Option Nat
  success : Option Bool
  details : Option String
deriving DecidableEq

/-- Oracle for one `_fine_tune_<task>` adaptation step
(prompt construction plus the simulated model update): it yields the opaque
details payload, or `none` when the step raises and the helper returns
`None`. -/
def AdaptOracle : Type := String → List FTExample → Option String

/-- What one `fine_tune` call did: its boolean return value, the history
entries it appended, and the task types whose adaptation step was invoked. -/
structure FineTuneOutcome where
  returned : Bool
  appended : List HistoryEntry
  invoked : List String
deriving DecidableEq

/-- The task-type partition `[d for d in training_data if d.get("task_type") == t]`. -/
def ft_partition (training_data : List FTExample) (t : String) : List FTExample :=
  training_data.filter (fun d => d.task_type == some t)

/-- Guarded attempt of one partition: skipped when the partition is empty,
otherwise the adaptation oracle runs and a successful result records the task
type and data count. -/
def ft_attempt (adapt : AdaptOracle) (t : String) (data : List FTExample) :
    Option (String × Nat × String) :=
  if data.isEmpty then none
  else (adapt t data).map (fun details => (t, data.length, details))

/-- `fine_tune`: refuse empty input, partition by task type, attempt each
non-empty partition in order (sentiment, anomaly, summary), append one
history entry per success stamped with `now`, and succeed iff some partition
succeeded. -/
def fine_tune (adapt : AdaptOracle) (now : String)
    (training_data : List FTExample) : FineTuneOutcome :=
  if training_data.isEmpty then ⟨false, [], []⟩
  else
    let sentiment_data := ft_partition training_data "sentiment"
    let anomaly_data := ft_partition training_data "anomaly"
    let summary_data := ft_partition training_data "summary"
    let invoked :=
      (if sentiment_data.isEmpty then [] else ["sentiment"]) ++
        (if anomaly_data.isEmpty then [] else ["anomaly"]) ++
        (if summary_data.isEmpty then [] else ["summary"])
    let results :=
      (ft_attempt adapt "sentiment" sentiment_data).toList ++
        (ft_attempt adapt "anomaly" anomaly_data).toList ++
        (ft_attempt adapt "summary" summary_data).toList
    if results.isEmpty then ⟨false, [], invoked⟩
    else
      ⟨true,
        results.map (fun r => ⟨some now, some r.1, some r.2.1, some true, some r.2.2⟩),
        invoked⟩

/-- The sort key `x.get("timestamp", "")`. -/
def ts_key (h : HistoryEntry) : String := h.timestamp.getD ""

/-- Python string comparison: lexicographic over Unicode code points. -/
def py_chars_lt : List Char → List Char → Bool
  | _, [] => false
  | [], _ :: _ => true
  | a :: as, b :: bs =>
    if a.toNat < b.toNat then true
    else if b.toNat < a.toNat then false
    else py_chars_lt as bs

/-- Python `<` on strings. -/
def py_str_lt (a b : String) : Bool := py_chars_lt a.data b.data

/-- Python `max(best :: xs, key=ts_key)`: scan left to right, replacing the
champion only on a strictly greater key (ties keep the earlier entry). -/
def py_max_entry : HistoryEntry → List HistoryEntry → HistoryEntry
  | best, [] => best
  | best, x :: xs =>
    py_max_entry (if py_str_lt (ts_key best) (ts_key x) then x else best) xs

/-- The optional task-type filter; Python `if task_type:` treats both `None`
and the empty string as absent. -/
def ft_filtered (history : List HistoryEntry) (task_type : Option String) :
    List HistoryEntry :=
  match task_type with
  | none => history
  | some t =>
    if t = "" then history
    else history.filter (fun h => h.task_type == some t)

/-- `get_last_fine_tuning_time`: `none` on an empty history or an empty
filtered set, otherwise the timestamp of the max-timestamp entry.  The final
`datetime.fromisoformat` is modelled as the identity on the stored string: a
missing timestamp key makes it raise, which the source catches and turns
into `None`, matching `Option.none` here. -/
def get_last_fine_tuning_time (history : List HistoryEntry)
    (task_type : Option String) : Option String :=
  if history.isEmpty then none
  else
    match ft_filtered history task_type with
    | [] => none
    | x :: xs => (py_max_entry x xs).timestamp

/-! Stream consumer loop (`start_consuming`). -/

/-- The loop state of `start_consuming`: the pending batch and the
`last_process_time` instant (a Unix timestamp in seconds). -/
structure ConsumerState (α : Type) where
  messages_batch : List α
  last_process_time : Int
deriving DecidableEq

/-- The state at loop entry: `messages_batch = []`, `last_process_time = 0`. -/
def consumer_start_state {α : Type} : ConsumerState α := ⟨[], 0⟩

/-- One iteration of the consume loop for a record `m` arriving at wall-clock
second `t`: append, then flush when the batch is full or the timeout since
the last flush has elapsed. -/
def consume_step {α : Type} (batch_size batch_timeout : Int)
    (st : ConsumerState α) (m : α) (t : Int) :
    ConsumerState α × Option (List α) :=
  let batch := st.messages_batch ++ [m]
  let batch_full := decide (batch_size ≤ (batch.length : Int))
  let timeout_reached := decide (batch_timeout ≤ t - st.last_process_time)
  if batch_full || timeout_reached then
    if batch.isEmpty then (⟨batch, st.last_process_time⟩, none)
    else (⟨[], t⟩, some batch)
  else (⟨batch, st.last_process_time⟩, none)

/-- Run the consume loop over a finite arrival sequence, collecting the
flushed batches in order. -/
def run_consumer {α : Type} (batch_size batch_timeout : Int) :
    ConsumerState α → List (α × Int) → List (List α) × ConsumerState α
  | st, [] => ([], st)
  | st, (m, t) :: rest =>
    let step := consume_step batch_size batch_timeout st m t
    let next := run_consumer batch_size batch_timeout step.1 rest
    (step.2.toList ++ next.1, next.2)

/-- `start_consuming` on a finite stream: run the loop from the initial state
and flush any non-empty remainder at stream end. -/
def start_consuming {α : Type} (batch_size batch_timeout : Int)
    (stream : List (α × Int)) : List (List α) :=
  let r := run_consumer batch_size batch_timeout consumer_start_state stream
  r.1 ++ (if r.2.messages_batch.isEmpty then [] else [r.2.messages_batch])

/-! Concrete fixtures used by counterexamples and witnesses. -/

/-- A fetch environment in which every backend query raises. -/
def env_err : FetchEnv :=
  ⟨fun _ _ => .error (), fun _ _ => .error (), fun _ _ => .error ()⟩

/-- A fetch environment in which every window is empty. -/
def env_empty : FetchEnv :=
  ⟨fun _ _ => .ok [], fun _ _ => .ok [], fun _ _ => .ok []⟩

/-- A fetch environment in which only the access-log window has one
(server-error) record. -/
def env_nginx500 : FetchEnv :=
  ⟨fun _ _ => .ok [], fun _ _ => .ok [⟨some "t", some "ip", some "GET",
    some "/a", some 500, some 20⟩], fun _ _ => .ok []⟩

/-- A clustering oracle that always raises. -/
def kmeans_none : ClusterOracle := fun _ _ => none

/-- A clustering oracle that puts every message into cluster 0 — the labels
scikit-learn K-means produces on ten identical messages. -/
def kmeans_zero : ClusterOracle := fun msgs _ => some (List.replicate msgs.length 0)

/-- A resampling oracle that always raises. -/
def resample_none : ResampleOracle := fun _ => none

/-- A resampling oracle that always yields 50.0 averages. -/
def resample_fifty : ResampleOracle := fun _ => some ("50.0", "50.0", "50.0")

/-- One previously persisted training example. -/
def ex0 : TrainingExample := .anomaly "x" "critical" ["i"] "e"

/-- A processor state with a connected client and a persisted latest set. -/
def st0 : ProcState := ⟨true, 0, 0, 0, some [ex0]⟩

/-- A success-status access-log record. -/
def nginx200 : NginxLog := ⟨some "t", some "ip", some "GET", some "/", some 200, some 10⟩

/-- The traffic-summary example produced for the batch `[nginx200]`. -/
def nginx200_summary : TrainingExample :=
  .summary ("웹 트래픽 로그:\nt ip GET / 200 10ms\n")
    ("웹 트래픽 요약: 총 1개의 성공적인 요청이 있었습니다. 가장 많이 요청된 경로: / (1회)")

/-- A server-error access-log record. -/
def nginx500 : NginxLog := ⟨some "t", some "ip", some "GET", some "/a", some 500, some 20⟩

/-- An ERROR application-log record. -/
def app_err_log : AppLog := ⟨some "t", some "svc", some "ERROR", some "boom", some "tb"⟩

/-- A WARNING application-log record. -/
def app_warn_log : AppLog := ⟨some "t", some "svc", some "WARNING", some "careful", none⟩

/-- An INFO application-log record with a non-empty message. -/
def app_info_log : AppLog := ⟨some "t", some "svc", some "INFO", some "hello", none⟩

/-- Ten identical INFO records. -/
def app_info_batch : List AppLog := List.replicate 10 app_info_log

/-- A metric record crossing all three thresholds on host `h1`. -/
def metric_hot : Metric := ⟨some "t", some "h1", some 95, some 95, some 95⟩

/-- An adaptation oracle that always succeeds. -/
def adapt_ok : AdaptOracle := fun _ _ => some "d"

/-- A single anomaly-tagged fine-tuning input. -/
def ft_anomaly_one : List FTExample := [⟨some "anomaly"⟩]

/-- Three history entries: an early anomaly run, a later summary run, and the
latest anomaly run, appended out of timestamp order. -/
def hist_a1 : HistoryEntry :=
  ⟨some "2024-01-01T00:00:00", some "anomaly", some 3, some true, some "d1"⟩

/-- The summary-tagged history entry. -/
def hist_s2 : HistoryEntry :=
  ⟨some "2024-02-01T00:00:00", some "summary", some 2, some true, some "d2"⟩

/-- The latest anomaly-tagged history entry. -/
def hist_a3 : HistoryEntry :=
  ⟨some "2024-03-01T00:00:00", some "anomaly", some 5, some true, some "d3"⟩

/-- The out-of-order history store: the max-timestamp anomaly entry sits in
the middle of the list. -/
def hist3 : List HistoryEntry := [hist_a1, hist_a3, hist_s2]

/-! Helper lemmas. -/

/-- Classification of an empty application-log batch. -/
theorem process_application_logs_nil (kmeans : ClusterOracle) :
    _process_application_logs kmeans [] = [] := rfl

/-- Classification of an empty access-log batch. -/
theorem process_nginx_logs_nil : _process_nginx_logs [] = [] := rfl

/-- Classification of an empty metrics batch. -/
theorem process_system_metrics_nil (resample : ResampleOracle) :
    _process_system_metrics resample [] = [] := rfl

/-- When the clustering call raises, the INFO branch yields no examples. -/
theorem app_cluster_summaries_of_none (kmeans : ClusterOracle)
    (info_logs : List AppLog)
    (h : kmeans ((app_messages info_logs).map app_message_text)
        (app_n_clusters ((app_messages info_logs).map app_message_text)) = none) :
    app_cluster_summaries kmeans info_logs = [] := by
  unfold app_cluster_summaries
  dsimp only
  split
  · rw [h]
  · rfl

/-- `_process_application_logs` always splits as errors, warnings, summaries. -/
theorem process_application_logs_eq (kmeans : ClusterOracle) (logs : List AppLog) :
    _process_application_logs kmeans logs =
      ((logs.filter (fun log => log.log_level == some "ERROR")).map app_error_example) ++
        ((logs.filter (fun log => log.log_level == some "WARNING")).map app_warning_example) ++
        (if 10 ≤ (logs.filter (fun log => log.log_level == some "INFO")).length then
          app_cluster_summaries kmeans (logs.filter (fun log => log.log_level == some "INFO"))
         else []) := by
  unfold _process_application_logs
  split
  · next he =>
    rw [List.isEmpty_iff] at he
    subst he
    rfl
  · rfl

/-! C2: watermark advance. -/

/-- C2: on a pull cycle with an initialized client, all three watermarks are
set to `now` whatever the fetches return; and when all three fetches fail
with a backend error the cycle additionally returns an empty example list. -/
theorem claim_C2 (env : FetchEnv) (kmeans : ClusterOracle)
    (resample : ResampleOracle) (st : ProcState) (now : Nat)
    (h : st.es_client_ok = true) :
    ((process_new_logs env kmeans resample st now).2.wm_application_logs = now ∧
      (process_new_logs env kmeans resample st now).2.wm_nginx_access = now ∧
      (process_new_logs env kmeans resample st now).2.wm_system_metrics = now) ∧
    (env.fetch_application_logs st.wm_application_logs now = .error () →
      env.fetch_nginx_logs st.wm_nginx_access now = .error () →
      env.fetch_system_metrics st.wm_system_metrics now = .error () →
      (process_new_logs env kmeans resample st now).1 = []) := by
  constructor
  · simp only [process_new_logs, h, if_true]
    split <;> exact ⟨rfl, rfl, rfl⟩
  · intro ha hn hm
    simp only [process_new_logs, h, if_true, ha, hn, hm, fetched,
      process_application_logs_nil, process_nginx_logs_nil,
      process_system_metrics_nil, List.nil_append]

/-- Witness for C2 at a concrete failing environment and connected state. -/
theorem claim_C2_witness :
    ((process_new_logs env_err kmeans_none resample_none st0 7).2.wm_application_logs = 7 ∧
      (process_new_logs env_err kmeans_none resample_none st0 7).2.wm_nginx_access = 7 ∧
      (process_new_logs env_err kmeans_none resample_none st0 7).2.wm_system_metrics = 7) ∧
    (process_new_logs env_err kmeans_none resample_none st0 7).1 = [] := by
  have h := claim_C2 env_err kmeans_none resample_none st0 7 rfl
  exact ⟨h.1, h.2 rfl rfl rfl⟩

/-! C3: persistence of the latest result set. -/

/-- C3 counterexample: a cycle whose combined result set is empty does not
overwrite the persisted latest data, so `get_latest_processed_data` returns
the previous cycle's set, not this cycle's (empty) set. -/
theorem claim_C3_counterexample :
    (process_new_logs env_empty kmeans_none resample_none st0 1).1 = [] ∧
    get_latest_processed_data
        (process_new_logs env_empty kmeans_none resample_none st0 1).2 = [ex0] := by
  exact ⟨rfl, rfl⟩

/-- C3 as amended: a non-empty combined result set is persisted as latest
(and is what `get_latest_processed_data` then returns) and returned; an
empty result set is returned but leaves the persisted latest data unchanged. -/
theorem claim_C3_amended (env : FetchEnv) (kmeans : ClusterOracle)
    (resample : ResampleOracle) (st : ProcState) (now : Nat)
    (h : st.es_client_ok = true) :
    ((process_new_logs env kmeans resample st now).1 ≠ [] →
      (process_new_logs env kmeans resample st now).2.processed_data =
          some (process_new_logs env kmeans resample st now).1 ∧
        get_latest_processed_data (process_new_logs env kmeans resample st now).2 =
          (process_new_logs env kmeans resample st now).1) ∧
    ((process_new_logs env kmeans resample st now).1 = [] →
      (process_new_logs env kmeans resample st now).2.processed_data =
        st.processed_data) := by
  constructor
  · intro hne
    simp only [process_new_logs, h, if_true] at hne ⊢
    split
    · next hcond =>
      rw [List.isEmpty_iff] at hcond
      exact absurd hcond hne
    · exact ⟨rfl, rfl⟩
  · intro hnil
    simp only [process_new_logs, h, if_true] at hnil ⊢
    split
    · rfl
    · next hcond =>
      rw [List.isEmpty_iff] at hcond  -- hcond : ¬ isEmpty; derive contradiction
      exact absurd hnil hcond

/-! C6: clustering failure degrades to no summaries. -/

/-- C6: when the clustering sub-step raises on the INFO messages, the
classification output is exactly the ERROR anomalies followed by the WARNING
anomalies — every anomaly is kept, no summary is emitted, and the call
still returns. -/
theorem claim_C6 (kmeans : ClusterOracle) (logs : List AppLog)
    (h : kmeans
        ((app_messages (logs.filter (fun log => log.log_level == some "INFO"))).map
          app_message_text)
        (app_n_clusters
          ((app_messages (logs.filter (fun log => log.log_level == some "INFO"))).map
            app_message_text)) = none) :
    _process_application_logs kmeans logs =
      ((logs.filter (fun log => log.log_level == some "ERROR")).map app_error_example) ++
        ((logs.filter (fun log => log.log_level == some "WARNING")).map app_warning_example) ∧
    ∀ e ∈ _process_application_logs kmeans logs, e.task_type = "anomaly" := by
  have heq := process_application_logs_eq kmeans logs
  rw [app_cluster_summaries_of_none kmeans _ h] at heq
  have hif : (if 10 ≤ (logs.filter (fun log => log.log_level == some "INFO")).length
      then ([] : List TrainingExample) else []) = [] := by split <;> rfl
  rw [hif, List.append_nil] at heq
  refine ⟨heq, ?_⟩
  intro e he
  rw [heq] at he
  rcases List.mem_append.mp he with h1 | h2
  · obtain ⟨l, _, rfl⟩ := List.mem_map.mp h1
    rfl
  · obtain ⟨l, _, rfl⟩ := List.mem_map.mp h2
    rfl

/-- Witness for C6 on a batch with one ERROR and one WARNING record. -/
theorem claim_C6_witness :
    _process_application_logs kmeans_none [app_err_log, app_warn_log] =
      (([app_err_log, app_warn_log].filter
          (fun log => log.log_level == some "ERROR")).map app_error_example) ++
        (([app_err_log, app_warn_log].filter
          (fun log => log.log_level == some "WARNING")).map app_warning_example) :=
  (claim_C6 kmeans_none [app_err_log, app_warn_log] rfl).1

/-! C7: all-500 access-log batches. -/

/-- Every access-log batch splits as 5xx, 4xx, slow, then traffic summary. -/
theorem process_nginx_logs_eq (logs : List NginxLog) :
    _process_nginx_logs logs =
      ((logs.filter (fun log => decide (500 ≤ pyGetInt log.status_code))).map
          nginx_error_example) ++
        ((logs.filter (fun log => decide (400 ≤ pyGetInt log.status_code) &&
            decide (pyGetInt log.status_code < 500))).map nginx_warning_example) ++
        (((logs.filter (fun log => decide (200 ≤ pyGetInt log.status_code) &&
            decide (pyGetInt log.status_code < 400))).filter
            (fun log => decide (1000 < pyGetInt log.response_time))).map
          nginx_slow_example) ++
        nginx_traffic_summary
          (logs.filter (fun log => decide (200 ≤ pyGetInt log.status_code) &&
            decide (pyGetInt log.status_code < 400))) := by
  unfold _process_nginx_logs
  split
  · next he =>
    rw [List.isEmpty_iff] at he
    subst he
    rfl
  · rfl

/-- C7: on a non-empty batch in which every record has status 500, the
output is exactly one critical anomaly per record carrying issue label
"서버 오류 500" ("server error 500"), and no summary example. -/
theorem claim_C7 (logs : List NginxLog) (hne : logs ≠ [])
    (hall : ∀ log ∈ logs, log.status_code = some 500) :
    _process_nginx_logs logs = logs.map nginx_error_example ∧
    (∀ e ∈ _process_nginx_logs logs, e.task_type = "anomaly" ∧
      e.anomaly_status = some "critical" ∧
      e.detected_issues = ["서버 오류 500"]) := by
  have hfe : logs.filter (fun log => decide (500 ≤ pyGetInt log.status_code)) = logs :=
    List.filter_eq_self.mpr (fun l hl => by rw [hall l hl]; rfl)
  have hfw : logs.filter (fun log => decide (400 ≤ pyGetInt log.status_code) &&
      decide (pyGetInt log.status_code < 500)) = [] :=
    List.filter_eq_nil_iff.mpr (fun l hl => by rw [hall l hl]; decide)
  have hfs : logs.filter (fun log => decide (200 ≤ pyGetInt log.status_code) &&
      decide (pyGetInt log.status_code < 400)) = [] :=
    List.filter_eq_nil_iff.mpr (fun l hl => by rw [hall l hl]; decide)
  have heq : _process_nginx_logs logs = logs.map nginx_error_example := by
    rw [process_nginx_logs_eq, hfe, hfw, hfs]
    simp [nginx_traffic_summary]
  refine ⟨heq, ?_⟩
  intro e he
  rw [heq] at he
  obtain ⟨l, hl, rfl⟩ := List.mem_map.mp he
  refine ⟨rfl, rfl, ?_⟩
  have hdi : (nginx_error_example l).detected_issues =
      ["서버 오류 " ++ pyStrInt l.status_code] := rfl
  rw [hdi, hall l hl]
  decide

/-- Witness for C7 on the single-record all-500 batch. -/
theorem claim_C7_witness :
    _process_nginx_logs [nginx500] = [nginx500].map nginx_error_example :=
  (claim_C7 [nginx500] (by decide) (by decide)).1

/-! C8: fine_tune return and isolation policy. -/

/-- A three-way option concatenation is non-empty iff some option is set. -/
theorem toList3_ne_nil {α : Type} (a b c : Option α) :
    (a.toList ++ b.toList ++ c.toList) ≠ [] ↔
      a ≠ none ∨ b ≠ none ∨ c ≠ none := by
  cases a <;> cases b <;> cases c <;> simp

/-- A partition attempt yields nothing iff the partition is empty or its
adaptation step raised. -/
theorem ft_attempt_eq_none_iff (adapt : AdaptOracle) (t : String)
    (data : List FTExample) :
    ft_attempt adapt t data = none ↔ data = [] ∨ adapt t data = none := by
  by_cases hd : data = []
  · subst hd
    simp [ft_attempt]
  · have hie : data.isEmpty = false := by
      cases data
      · exact absurd rfl hd
      · rfl
    simp [ft_attempt, hie, Option.map_eq_none', hd]

/-- A partition attempt yields a result iff the partition is non-empty and
its adaptation step succeeded. -/
theorem ft_attempt_ne_none_iff (adapt : AdaptOracle) (t : String)
    (data : List FTExample) :
    ft_attempt adapt t data ≠ none ↔ data ≠ [] ∧ adapt t data ≠ none := by
  rw [Ne, ft_attempt_eq_none_iff]
  tauto

/-- The set of invoked partitions depends only on the input data. -/
theorem fine_tune_invoked (adapt : AdaptOracle) (now : String)
    (data : List FTExample) :
    (fine_tune adapt now data).invoked =
      if data.isEmpty then []
      else
        (if (ft_partition data "sentiment").isEmpty then [] else ["sentiment"]) ++
          (if (ft_partition data "anomaly").isEmpty then [] else ["anomaly"]) ++
          (if (ft_partition data "summary").isEmpty then [] else ["summary"]) := by
  unfold fine_tune
  dsimp only
  split
  · rfl
  · split <;> rfl

/-- On non-empty input, `fine_tune` reports success iff some partition
attempt produced a result. -/
theorem fine_tune_returned_iff (adapt : AdaptOracle) (now : String)
    (data : List FTExample) (hne : data ≠ []) :
    (fine_tune adapt now data).returned = true ↔
      (ft_attempt adapt "sentiment" (ft_partition data "sentiment") ≠ none ∨
        ft_attempt adapt "anomaly" (ft_partition data "anomaly") ≠ none ∨
        ft_attempt adapt "summary" (ft_partition data "summary") ≠ none) := by
  have hie : data.isEmpty = false := by
    cases data
    · exact absurd rfl hne
    · rfl
  unfold fine_tune
  rw [hie]
  simp only [Bool.false_eq_true, if_false]
  split
  · next hres =>
    rw [List.isEmpty_iff] at hres
    constructor
    · intro hfalse
      exact absurd hfalse (by simp)
    · intro hdisj
      exact absurd hres ((toList3_ne_nil _ _ _).mpr hdisj)
  · next hres =>
    rw [List.isEmpty_iff] at hres
    simp only [true_iff]
    exact (toList3_ne_nil _ _ _).mp hres

/-- C8: `fine_tune` on empty input returns false with nothing invoked and
nothing appended; on non-empty input it returns true iff at least one
task-type partition is non-empty and its adaptation step succeeded; and the
set of partitions attempted does not depend on the adaptation outcomes, so
one partition's failure never prevents the others from being attempted. -/
theorem claim_C8 :
    (∀ (adapt : AdaptOracle) (now : String),
      fine_tune adapt now [] = ⟨false, [], []⟩) ∧
    (∀ (adapt : AdaptOracle) (now : String) (training_data : List FTExample),
      training_data ≠ [] →
      ((fine_tune adapt now training_data).returned = true ↔
        (ft_partition training_data "sentiment" ≠ [] ∧
            adapt "sentiment" (ft_partition training_data "sentiment") ≠ none) ∨
          (ft_partition training_data "anomaly" ≠ [] ∧
            adapt "anomaly" (ft_partition training_data "anomaly") ≠ none) ∨
          (ft_partition training_data "summary" ≠ [] ∧
            adapt "summary" (ft_partition training_data "summary") ≠ none))) ∧
    (∀ (adapt adapt2 : AdaptOracle) (now now2 : String)
        (training_data : List FTExample),
      (fine_tune adapt now training_data).invoked =
        (fine_tune adapt2 now2 training_data).invoked) := by
  refine ⟨fun adapt now => rfl, ?_, ?_⟩
  · intro adapt now data hne
    rw [fine_tune_returned_iff adapt now data hne,
      ft_attempt_ne_none_iff, ft_attempt_ne_none_iff, ft_attempt_ne_none_iff]
  · intro a a2 n n2 data
    rw [fine_tune_invoked, fine_tune_invoked]

/-- Witness for C8: empty input, a succeeding anomaly partition, and
invocation independence between a succeeding and a failing oracle. -/
theorem claim_C8_witness :
    fine_tune adapt_ok "T" [] = ⟨false, [], []⟩ ∧
    (fine_tune adapt_ok "T" ft_anomaly_one).returned = true ∧
    (fine_tune adapt_ok "T" ft_anomaly_one).invoked =
      (fine_tune (fun _ _ => none) "U" ft_anomaly_one).invoked := by
  refine ⟨claim_C8.1 adapt_ok "T", ?_,
    claim_C8.2.2 adapt_ok (fun _ _ => none) "T" "U" ft_anomaly_one⟩
  exact (claim_C8.2.1 adapt_ok "T" ft_anomaly_one (by decide)).mpr
    (Or.inr (Or.inl ⟨by decide, by simp [adapt_ok]⟩))

/-! C10: first record after loop start is flushed immediately. -/

/-- C10: the consume loop starts with `last_process_time = 0`, so for the
first record, arriving at any wall-clock instant at least the batch timeout,
the timeout condition holds and the single-record batch is flushed at once,
whatever the size threshold. -/
theorem claim_C10 :
    (∀ (α : Type), (consumer_start_state (α := α)).last_process_time = 0) ∧
    (∀ (α : Type) (batch_size batch_timeout : Int) (m : α) (t : Int),
      batch_timeout ≤ t →
      consume_step batch_size batch_timeout consumer_start_state m t =
        (⟨[], t⟩, some [m])) ∧
    (∀ (α : Type) (batch_size batch_timeout : Int) (m : α) (t : Int)
        (rest : List (α × Int)),
      batch_timeout ≤ t →
      ∃ more, start_consuming batch_size batch_timeout ((m, t) :: rest) =
        [m] :: more) := by
  have hstep : ∀ (α : Type) (bs bt : Int) (m : α) (t : Int), bt ≤ t →
      consume_step bs bt (consumer_start_state (α := α)) m t =
        (⟨[], t⟩, some [m]) := by
    intro α bs bt m t h
    unfold consume_step consumer_start_state
    dsimp only
    have htr : decide (bt ≤ t - 0) = true := by
      rw [decide_eq_true_eq]
      simpa using h
    rw [htr]
    simp
  refine ⟨fun α => rfl, hstep, ?_⟩
  intro α bs bt m t rest h
  refine ⟨(run_consumer bs bt ⟨[], t⟩ rest).1 ++
    (if (run_consumer bs bt ⟨[], t⟩ rest).2.messages_batch.isEmpty then []
      else [(run_consumer bs bt ⟨[], t⟩ rest).2.messages_batch]), ?_⟩
  unfold start_consuming
  dsimp only
  rw [run_consumer, hstep α bs bt m t h]
  simp [List.append_assoc]

/-! C1: which groups trigger summary examples. -/

/-- ERROR examples are anomaly-tagged. -/
theorem task_type_app_error (l : AppLog) :
    (app_error_example l).task_type = "anomaly" := rfl

/-- WARNING examples are anomaly-tagged. -/
theorem task_type_app_warning (l : AppLog) :
    (app_warning_example l).task_type = "anomaly" := rfl

/-- 5xx examples are anomaly-tagged. -/
theorem task_type_nginx_error (l : NginxLog) :
    (nginx_error_example l).task_type = "anomaly" := rfl

/-- 4xx examples are anomaly-tagged. -/
theorem task_type_nginx_warning (l : NginxLog) :
    (nginx_warning_example l).task_type = "anomaly" := rfl

/-- Slow-request examples are anomaly-tagged. -/
theorem task_type_nginx_slow (l : NginxLog) :
    (nginx_slow_example l).task_type = "anomaly" := rfl

/-- CPU examples are anomaly-tagged. -/
theorem task_type_metric_cpu (h : String) (m : Metric) :
    (metric_cpu_example h m).task_type = "anomaly" := rfl

/-- Memory examples are anomaly-tagged. -/
theorem task_type_metric_memory (h : String) (m : Metric) :
    (metric_memory_example h m).task_type = "anomaly" := rfl

/-- Disk examples are anomaly-tagged. -/
theorem task_type_metric_disk (h : String) (m : Metric) :
    (metric_disk_example h m).task_type = "anomaly" := rfl

/-- Every example in a per-host summary branch certifies a group of at
least ten records. -/
theorem mem_metric_summary_length (resample : ResampleOracle) (h : String)
    (data : List Metric) (e : TrainingExample)
    (he : e ∈ metric_summary resample h data) : 10 ≤ data.length := by
  unfold metric_summary at he
  split at he
  · next hc => exact hc
  · simp at he

/-- Every example in a per-host summary branch is a summary variant. -/
theorem mem_metric_summary_shape (resample : ResampleOracle) (h : String)
    (data : List Metric) (e : TrainingExample)
    (he : e ∈ metric_summary resample h data) :
    ∃ a b, e = TrainingExample.summary a b := by
  unfold metric_summary at he
  split at he
  · cases hr : resample data with
    | none => rw [hr] at he; simp at he
    | some avgs =>
      rw [hr] at he
      rw [List.mem_singleton] at he
      exact ⟨_, _, he⟩
  · simp at he

/-- A summary example in a per-host output certifies the ten-record bound on
that host group. -/
theorem mem_process_host_summary (resample : ResampleOracle) (h : String)
    (data : List Metric) (e : TrainingExample)
    (he : e ∈ process_host_metrics resample h data)
    (ht : e.task_type = "summary") : 10 ≤ data.length := by
  unfold process_host_metrics at he
  rcases List.mem_append.mp he with h123 | h4
  · rcases List.mem_append.mp h123 with h12 | h3
    · rcases List.mem_append.mp h12 with h1 | h2
      · obtain ⟨m, _, rfl⟩ := List.mem_map.mp h1
        rw [task_type_metric_cpu] at ht
        exact absurd ht (by decide)
      · obtain ⟨m, _, rfl⟩ := List.mem_map.mp h2
        rw [task_type_metric_memory] at ht
        exact absurd ht (by decide)
    · obtain ⟨m, _, rfl⟩ := List.mem_map.mp h3
      rw [task_type_metric_disk] at ht
      exact absurd ht (by decide)
  · exact mem_metric_summary_length resample h data e h4

/-- C1 counterexample: a single success-status access-log record — a
"group" of one record, far below ten — already produces a summary example. -/
theorem claim_C1_counterexample :
    (_process_nginx_logs [nginx200]).any is_summary = true ∧
    [nginx200].length < 10 := ⟨by decide, by decide⟩

/-- C1 as amended: for application logs and system metrics every summary
example does come from a triggering group of at least ten qualifying records
(the INFO group, resp. the per-host group); for access logs the traffic
summary only requires the success-status group to be non-empty, with no
ten-record minimum. -/
theorem claim_C1_amended :
    (∀ (kmeans : ClusterOracle) (logs : List AppLog) (e : TrainingExample),
      e ∈ _process_application_logs kmeans logs → e.task_type = "summary" →
      10 ≤ (logs.filter (fun log => log.log_level == some "INFO")).length) ∧
    (∀ (resample : ResampleOracle) (metrics : List Metric) (e : TrainingExample),
      e ∈ _process_system_metrics resample metrics → e.task_type = "summary" →
      ∃ hd ∈ host_metrics metrics,
        10 ≤ hd.2.length ∧ e ∈ process_host_metrics resample hd.1 hd.2) ∧
    (∀ (logs : List NginxLog) (e : TrainingExample),
      e ∈ _process_nginx_logs logs → e.task_type = "summary" →
      logs.filter (fun log => decide (200 ≤ pyGetInt log.status_code) &&
        decide (pyGetInt log.status_code < 400)) ≠ []) := by
  refine ⟨?_, ?_, ?_⟩
  · intro kmeans logs e he ht
    rw [process_application_logs_eq] at he
    rcases List.mem_append.mp he with h12 | h3
    · rcases List.mem_append.mp h12 with h1 | h2
      · obtain ⟨l, _, rfl⟩ := List.mem_map.mp h1
        rw [task_type_app_error] at ht
        exact absurd ht (by decide)
      · obtain ⟨l, _, rfl⟩ := List.mem_map.mp h2
        rw [task_type_app_warning] at ht
        exact absurd ht (by decide)
    · by_cases hc : 10 ≤ (logs.filter (fun log => log.log_level == some "INFO")).length
      · exact hc
      · rw [if_neg hc] at h3
        simp at h3
  · intro resample metrics e he ht
    unfold _process_system_metrics at he
    split at he
    · simp at he
    · obtain ⟨hd, hmem, hin⟩ := List.mem_flatMap.mp he
      exact ⟨hd, hmem, mem_process_host_summary resample hd.1 hd.2 e hin ht, hin⟩
  · intro logs e he ht
    rw [process_nginx_logs_eq] at he
    rcases List.mem_append.mp he with h123 | h4
    · rcases List.mem_append.mp h123 with h12 | h3
      · rcases List.mem_append.mp h12 with h1 | h2
        · obtain ⟨l, _, rfl⟩ := List.mem_map.mp h1
          rw [task_type_nginx_error] at ht
          exact absurd ht (by decide)
        · obtain ⟨l, _, rfl⟩ := List.mem_map.mp h2
          rw [task_type_nginx_warning] at ht
          exact absurd ht (by decide)
      · obtain ⟨l, _, rfl⟩ := List.mem_map.mp h3
        rw [task_type_nginx_slow] at ht
        exact absurd ht (by decide)
    · unfold nginx_traffic_summary at h4
      split at h4
      · simp at h4
      · next hc =>
        intro hnil
        rw [hnil] at hc
        exact hc rfl
  
/-- Witness for the amended C1 at the single-record access-log batch. -/
theorem claim_C1_amended_witness :
    [nginx200].filter (fun log => decide (200 ≤ pyGetInt log.status_code) &&
      decide (pyGetInt log.status_code < 400)) ≠ [] :=
  claim_C1_amended.2.2 [nginx200] nginx200_summary (by decide) (by decide)

/-! C4: per-record metric thresholds. -/

/-- Appending a record to its host group only adds that record to the
flattened grouping. -/
theorem insert_host_flat (acc : List (String × List Metric)) (h : String)
    (m : Metric) :
    ((insert_host acc h m).flatMap (fun hd => hd.2)).Perm
      ((acc.flatMap (fun hd => hd.2)) ++ [m]) := by
  induction acc with
  | nil => simp [insert_host]
  | cons kv rest ih =>
    obtain ⟨k, v⟩ := kv
    unfold insert_host
    split
    · simp only [List.flatMap_cons]
      rw [List.append_assoc, List.append_assoc]
      exact List.Perm.append_left v List.perm_append_comm
    · simp only [List.flatMap_cons]
      rw [List.append_assoc]
      exact List.Perm.append_left v ih

/-- Grouping by host permutes, but never drops or duplicates, the records. -/
theorem host_metrics_flat_perm (metrics : List Metric) :
    ((host_metrics metrics).flatMap (fun hd => hd.2)).Perm metrics := by
  suffices h : ∀ (ms : List Metric) (acc : List (String × List Metric)),
      ((ms.foldl (fun a m => insert_host a (metric_host m) m) acc).flatMap
        (fun hd => hd.2)).Perm ((acc.flatMap (fun hd => hd.2)) ++ ms) by
    simpa [host_metrics] using h metrics []
  intro ms
  induction ms with
  | nil =>
    intro acc
    simp
  | cons m rest ih =>
    intro acc
    simp only [List.foldl_cons]
    refine (ih (insert_host acc (metric_host m) m)).trans ?_
    refine (List.Perm.append_right rest (insert_host_flat acc (metric_host m) m)).trans ?_
    rw [List.append_assoc]
    exact List.Perm.refl _

/-- A mapped example list counts fully when the predicate accepts the image. -/
theorem countP_map_const_true {α : Type} (p : TrainingExample → Bool)
    (f : α → TrainingExample) (l : List α) (h : ∀ a, p (f a) = true) :
    (l.map f).countP p = l.length := by
  rw [List.countP_map]
  rw [List.countP_eq_length]
  intro a _
  exact h a

/-- A mapped example list counts zero when the predicate rejects the image. -/
theorem countP_map_const_false {α : Type} (p : TrainingExample → Bool)
    (f : α → TrainingExample) (l : List α) (h : ∀ a, p (f a) = false) :
    (l.map f).countP p = 0 := by
  rw [List.countP_map]
  rw [List.countP_eq_zero]
  intro a _
  simp [Function.comp, h a]

/-- Summary branches never carry an issue label. -/
theorem countP_metric_summary_has_issue (lbl : String)
    (resample : ResampleOracle) (h : String) (data : List Metric) :
    (metric_summary resample h data).countP (has_issue lbl) = 0 := by
  rw [List.countP_eq_zero]
  intro e he
  obtain ⟨a, b, rfl⟩ := mem_metric_summary_shape resample h data e he
  have hd : (TrainingExample.summary a b).detected_issues = [] := rfl
  simp [has_issue, hd]

/-- Per-host anomaly counting for the CPU threshold. -/
theorem countP_process_host_cpu (resample : ResampleOracle) (h : String)
    (data : List Metric) :
    (process_host_metrics resample h data).countP (has_issue "CPU 사용량 높음") =
      data.countP (fun m => decide (80 < pyGetInt m.cpu_usage)) := by
  unfold process_host_metrics
  rw [List.countP_append, List.countP_append, List.countP_append]
  rw [countP_map_const_true _ _ _ (fun m => by
    have : (metric_cpu_example h m).detected_issues = ["CPU 사용량 높음"] := rfl
    simp [has_issue, this])]
  rw [countP_map_const_false _ _ _ (fun m => by
    have : (metric_memory_example h m).detected_issues = ["메모리 사용량 높음"] := rfl
    simp [has_issue, this])]
  rw [countP_map_const_false _ _ _ (fun m => by
    have : (metric_disk_example h m).detected_issues = ["디스크 사용량 높음"] := rfl
    simp [has_issue, this])]
  rw [countP_metric_summary_has_issue]
  rw [List.countP_eq_length_filter]
  omega

/-- Per-host anomaly counting for the memory threshold. -/
theorem countP_process_host_memory (resample : ResampleOracle) (h : String)
    (data : List Metric) :
    (process_host_metrics resample h data).countP (has_issue "메모리 사용량 높음") =
      data.countP (fun m => decide (90 < pyGetInt m.memory_usage)) := by
  unfold process_host_metrics
  rw [List.countP_append, List.countP_append, List.countP_append]
  rw [countP_map_const_false _ _ _ (fun m => by
    have : (metric_cpu_example h m).detected_issues = ["CPU 사용량 높음"] := rfl
    simp [has_issue, this])]
  rw [countP_map_const_true _ _ _ (fun m => by
    have : (metric_memory_example h m).detected_issues = ["메모리 사용량 높음"] := rfl
    simp [has_issue, this])]
  rw [countP_map_const_false _ _ _ (fun m => by
    have : (metric_disk_example h m).detected_issues = ["디스크 사용량 높음"] := rfl
    simp [has_issue, this])]
  rw [countP_metric_summary_has_issue]
  rw [List.countP_eq_length_filter]
  omega

/-- Per-host anomaly counting for the disk threshold. -/
theorem countP_process_host_disk (resample : ResampleOracle) (h : String)
    (data : List Metric) :
    (process_host_metrics resample h data).countP (has_issue "디스크 사용량 높음") =
      data.countP (fun m => decide (85 < pyGetInt m.disk_usage)) := by
  unfold process_host_metrics
  rw [List.countP_append, List.countP_append, List.countP_append]
  rw [countP_map_const_false _ _ _ (fun m => by
    have : (metric_cpu_example h m).detected_issues = ["CPU 사용량 높음"] := rfl
    simp [has_issue, this])]
  rw [countP_map_const_false _ _ _ (fun m => by
    have : (metric_memory_example h m).detected_issues = ["메모리 사용량 높음"] := rfl
    simp [has_issue, this])]
  rw [countP_map_const_true _ _ _ (fun m => by
    have : (metric_disk_example h m).detected_issues = ["디스크 사용량 높음"] := rfl
    simp [has_issue, this])]
  rw [countP_metric_summary_has_issue]
  rw [List.countP_eq_length_filter]
  omega

/-- Whole-batch counting reduces to per-host counting through the grouping
permutation. -/
theorem countP_process_system_metrics (p : TrainingExample → Bool)
    (q : Metric → Bool) (resample : ResampleOracle)
    (hper : ∀ h data,
      (process_host_metrics resample h data).countP p = data.countP q)
    (metrics : List Metric) :
    (_process_system_metrics resample metrics).countP p = metrics.countP q := by
  unfold _process_system_metrics
  split
  · next he =>
    rw [List.isEmpty_iff] at he
    subst he
    simp
  · rw [List.countP_flatMap]
    have h1 : (host_metrics metrics).map
        (List.countP p ∘ fun hd => process_host_metrics resample hd.1 hd.2) =
        (host_metrics metrics).map (List.countP q ∘ fun hd => hd.2) := by
      apply List.map_congr_left
      intro hd _
      exact hper hd.1 hd.2
    rw [h1, ← List.countP_flatMap]
    exact List.Perm.countP_eq q (host_metrics_flat_perm metrics)

/-- C4: over any metrics batch, the classification output carries exactly one
"CPU 사용량 높음" (CPU usage high) warning anomaly per record with
cpu_usage over 80, exactly one "메모리 사용량 높음" (memory usage high)
critical anomaly per record with memory_usage over 90, and exactly one
"디스크 사용량 높음" (disk usage high) warning anomaly per record with
disk_usage over 85; and a single record crossing all three thresholds yields
three separate anomaly examples. -/
theorem claim_C4 :
    (∀ (resample : ResampleOracle) (metrics : List Metric),
      (_process_system_metrics resample metrics).countP (has_issue "CPU 사용량 높음") =
        metrics.countP (fun m => decide (80 < pyGetInt m.cpu_usage)) ∧
      (_process_system_metrics resample metrics).countP (has_issue "메모리 사용량 높음") =
        metrics.countP (fun m => decide (90 < pyGetInt m.memory_usage)) ∧
      (_process_system_metrics resample metrics).countP (has_issue "디스크 사용량 높음") =
        metrics.countP (fun m => decide (85 < pyGetInt m.disk_usage))) ∧
    (∀ (resample : ResampleOracle) (metrics : List Metric) (e : TrainingExample),
      e ∈ _process_system_metrics resample metrics →
      (has_issue "CPU 사용량 높음" e = true → e.anomaly_status = some "warning") ∧
      (has_issue "메모리 사용량 높음" e = true → e.anomaly_status = some "critical") ∧
      (has_issue "디스크 사용량 높음" e = true → e.anomaly_status = some "warning")) ∧
    (∀ (resample : ResampleOracle) (h : String) (m : Metric),
      80 < pyGetInt m.cpu_usage → 90 < pyGetInt m.memory_usage →
      85 < pyGetInt m.disk_usage →
      (process_host_metrics resample h [m]).length = 3 ∧
      ∀ e ∈ process_host_metrics resample h [m], e.task_type = "anomaly") := by
  refine ⟨?_, ?_, ?_⟩
  · intro resample metrics
    exact ⟨countP_process_system_metrics _ _ resample
        (fun h data => countP_process_host_cpu resample h data) metrics,
      countP_process_system_metrics _ _ resample
        (fun h data => countP_process_host_memory resample h data) metrics,
      countP_process_system_metrics _ _ resample
        (fun h data => countP_process_host_disk resample h data) metrics⟩
  · intro resample metrics e he
    unfold _process_system_metrics at he
    split at he
    · simp at he
    · obtain ⟨hd, _, hin⟩ := List.mem_flatMap.mp he
      unfold process_host_metrics at hin
      rcases List.mem_append.mp hin with h123 | h4
      · rcases List.mem_append.mp h123 with h12 | h3
        · rcases List.mem_append.mp h12 with h1 | h2
          · obtain ⟨m, _, rfl⟩ := List.mem_map.mp h1
            have hdi : (metric_cpu_example hd.1 m).detected_issues =
              ["CPU 사용량 높음"] := rfl
            refine ⟨fun _ => rfl, fun hc => ?_, fun hc => ?_⟩ <;>
              simp [has_issue, hdi] at hc
          · obtain ⟨m, _, rfl⟩ := List.mem_map.mp h2
            have hdi : (metric_memory_example hd.1 m).detected_issues =
              ["메모리 사용량 높음"] := rfl
            refine ⟨fun hc => ?_, fun _ => rfl, fun hc => ?_⟩ <;>
              simp [has_issue, hdi] at hc
        · obtain ⟨m, _, rfl⟩ := List.mem_map.mp h3
          have hdi : (metric_disk_example hd.1 m).detected_issues =
            ["디스크 사용량 높음"] := rfl
          refine ⟨fun hc => ?_, fun hc => ?_, fun _ => rfl⟩ <;>
            simp [has_issue, hdi] at hc
      · obtain ⟨a, b, rfl⟩ := mem_metric_summary_shape resample hd.1 hd.2 e h4
        have hdi : (TrainingExample.summary a b).detected_issues = [] := rfl
        refine ⟨fun hc => ?_, fun hc => ?_, fun hc => ?_⟩ <;>
          simp [has_issue, hdi] at hc
  · intro resample h m h1 h2 h3
    have hf1 : ([m] : List Metric).filter
        (fun m2 => decide (80 < pyGetInt m2.cpu_usage)) = [m] := by
      simp [List.filter_cons, h1]
    have hf2 : ([m] : List Metric).filter
        (fun m2 => decide (90 < pyGetInt m2.memory_usage)) = [m] := by
      simp [List.filter_cons, h2]
    have hf3 : ([m] : List Metric).filter
        (fun m2 => decide (85 < pyGetInt m2.disk_usage)) = [m] := by
      simp [List.filter_cons, h3]
    have hsum : metric_summary resample h [m] = [] := by
      unfold metric_summary
      rw [if_neg (by simp)]
    unfold process_host_metrics
    rw [hf1, hf2, hf3, hsum]
    constructor
    · simp
    · intro e he
      simp only [List.map_cons, List.map_nil, List.append_nil, List.mem_append,
        List.mem_singleton] at he
      rcases he with (rfl | rfl) | rfl <;> rfl

/-- Witness for C4 at a single record crossing all three thresholds. -/
theorem claim_C4_witness :
    (_process_system_metrics resample_none [metric_hot]).countP
        (has_issue "CPU 사용량 높음") = 1 ∧
    (process_host_metrics resample_none "h1" [metric_hot]).length = 3 := by
  constructor
  · rw [(claim_C4.1 resample_none [metric_hot]).1]
    decide
  · exact (claim_C4.2.2 resample_none "h1" metric_hot (by decide) (by decide)
      (by decide)).1

/-! C5: ten identical INFO messages. -/

/-- A non-empty cluster always yields a summary. -/
theorem app_cluster_summary_for_isSome (info_logs : List AppLog)
    (clusters : List Nat) (cluster_id : Nat)
    (h : cluster_members clusters info_logs cluster_id ≠ []) :
    app_cluster_summary_for info_logs clusters cluster_id ≠ none := by
  unfold app_cluster_summary_for
  dsimp only
  split
  · next heq => exact absurd heq h
  · simp

/-- Whatever a cluster yields is a summary variant. -/
theorem app_cluster_summary_for_shape (info_logs : List AppLog)
    (clusters : List Nat) (cluster_id : Nat) (e : TrainingExample)
    (h : app_cluster_summary_for info_logs clusters cluster_id = some e) :
    ∃ a b, e = TrainingExample.summary a b := by
  unfold app_cluster_summary_for at h
  dsimp only at h
  split at h
  · simp at h
  · exact ⟨_, _, (Option.some.inj h).symm⟩

/-- Every example produced by the clustering branch is a summary variant. -/
theorem app_cluster_summaries_shape (kmeans : ClusterOracle)
    (info_logs : List AppLog) (e : TrainingExample)
    (he : e ∈ app_cluster_summaries kmeans info_logs) :
    ∃ a b, e = TrainingExample.summary a b := by
  unfold app_cluster_summaries at he
  dsimp only at he
  split at he
  · split at he
    · simp at he
    · obtain ⟨a, _, hfa⟩ := List.mem_filterMap.mp he
      exact app_cluster_summary_for_shape info_logs _ a e hfa
  · simp at he

/-- The clustering branch under a successful clustering call. -/
theorem app_cluster_summaries_of_some (kmeans : ClusterOracle)
    (info_logs : List AppLog) (clusters : List Nat)
    (h10 : 10 ≤ ((app_messages info_logs).map app_message_text).length)
    (hk : kmeans ((app_messages info_logs).map app_message_text)
      (app_n_clusters ((app_messages info_logs).map app_message_text)) =
        some clusters) :
    app_cluster_summaries kmeans info_logs =
      (List.range (app_n_clusters
        ((app_messages info_logs).map app_message_text))).filterMap
        (app_cluster_summary_for info_logs clusters) := by
  unfold app_cluster_summaries
  dsimp only
  rw [if_pos h10, hk]

/-- C5: on a batch of exactly ten INFO records with the same non-empty
message, classification requests `k = min(5, 10 // 2) = 5` clusters, the
clustering step (which scikit-learn completes on such input, modelled by the
oracle returning one in-range label per message) does not abort the batch,
and the output is non-empty with every example summary-tagged. -/
theorem claim_C5 (kmeans : ClusterOracle) (logs : List AppLog) (msg : String)
    (labels : List Nat)
    (hlen : logs.length = 10)
    (hinfo : ∀ log ∈ logs, log.log_level = some "INFO")
    (hmsg : ∀ log ∈ logs, log.message = some msg)
    (hne : msg ≠ "")
    (hlablen : labels.length = 10)
    (hlab : ∀ c ∈ labels, c < 5)
    (hk : kmeans (List.replicate 10 msg) 5 = some labels) :
    app_n_clusters ((app_messages (logs.filter (fun log =>
      log.log_level == some "INFO"))).map app_message_text) = 5 ∧
    (∀ e ∈ _process_application_logs kmeans logs, e.task_type = "summary") ∧
    _process_application_logs kmeans logs ≠ [] := by
  have hinfofilter : logs.filter (fun log => log.log_level == some "INFO") = logs :=
    List.filter_eq_self.mpr (fun l hl => by rw [hinfo l hl]; rfl)
  have herr : logs.filter (fun log => log.log_level == some "ERROR") = [] :=
    List.filter_eq_nil_iff.mpr (fun l hl => by rw [hinfo l hl]; decide)
  have hwarn : logs.filter (fun log => log.log_level == some "WARNING") = [] :=
    List.filter_eq_nil_iff.mpr (fun l hl => by rw [hinfo l hl]; decide)
  have happmsgs : app_messages logs = logs :=
    List.filter_eq_self.mpr (fun l hl => by
      rw [hmsg l hl]
      simp [hne])
  have hmap : (app_messages logs).map app_message_text = List.replicate 10 msg := by
    rw [happmsgs]
    refine List.eq_replicate_iff.mpr ⟨by simp [hlen], ?_⟩
    intro b hb
    obtain ⟨l, hl, rfl⟩ := List.mem_map.mp hb
    unfold app_message_text
    rw [hmsg l hl]
    rfl
  have h5 : app_n_clusters (List.replicate 10 msg) = 5 := by
    simp [app_n_clusters]
  have hn5 : app_n_clusters ((app_messages (logs.filter (fun log =>
      log.log_level == some "INFO"))).map app_message_text) = 5 := by
    rw [hinfofilter, hmap, h5]
  refine ⟨hn5, ?_, ?_⟩
  · intro e he
    rw [process_application_logs_eq, herr, hwarn, hinfofilter] at he
    simp only [List.map_nil, List.nil_append] at he
    rw [if_pos (by omega)] at he
    obtain ⟨a, b, rfl⟩ := app_cluster_summaries_shape kmeans logs e he
    rfl
  · rw [process_application_logs_eq, herr, hwarn, hinfofilter]
    simp only [List.map_nil, List.nil_append]
    rw [if_pos (by omega)]
    rw [app_cluster_summaries_of_some kmeans logs labels
      (by rw [hmap]; simp) (by rw [hmap, h5]; exact hk)]
    rw [hmap, h5]
    intro hnil
    rw [List.filterMap_eq_nil_iff] at hnil
    obtain ⟨c0, rest, rfl⟩ : ∃ c0 rest, labels = c0 :: rest := by
      cases labels with
      | nil => simp at hlablen
      | cons c0 rest => exact ⟨c0, rest, rfl⟩
    obtain ⟨l0, logs2, rfl⟩ : ∃ l0 logs2, logs = l0 :: logs2 := by
      cases logs with
      | nil => simp at hlen
      | cons l0 logs2 => exact ⟨l0, logs2, rfl⟩
    have hc5 : c0 ∈ List.range 5 := List.mem_range.mpr (hlab c0 (by simp))
    have hmemne : cluster_members (c0 :: rest) (l0 :: logs2) c0 ≠ [] := by
      unfold cluster_members
      rw [List.zip_cons_cons, List.filterMap_cons]
      simp
    exact app_cluster_summary_for_isSome (l0 :: logs2) (c0 :: rest) c0 hmemne
      (hnil c0 hc5)

/-- Witness for C5 on ten identical "hello" INFO records with the all-zero
labelling. -/
theorem claim_C5_witness :
    app_n_clusters ((app_messages (app_info_batch.filter (fun log =>
      log.log_level == some "INFO"))).map app_message_text) = 5 ∧
    _process_application_logs kmeans_zero app_info_batch ≠ [] := by
  have h := claim_C5 kmeans_zero app_info_batch "hello" (List.replicate 10 0)
    (by decide) (by decide) (by decide) (by decide) (by decide) (by decide) rfl
  exact ⟨h.1, h.2.2⟩

/-! C9: last fine-tuning time. -/

/-- Code-point comparison is irreflexive. -/
theorem py_chars_lt_irrefl (l : List Char) : py_chars_lt l l = false := by
  induction l with
  | nil => rfl
  | cons a as ih => simp [py_chars_lt, ih]

/-- Code-point comparison is transitive. -/
theorem py_chars_lt_trans : ∀ (x y z : List Char),
    py_chars_lt x y = true → py_chars_lt y z = true → py_chars_lt x z = true := by
  intro x
  induction x with
  | nil =>
    intro y z hxy hyz
    cases z with
    | nil =>
      cases y with
      | nil => exact absurd hxy (by simp [py_chars_lt])
      | cons b bs => exact absurd hyz (by simp [py_chars_lt])
    | cons c cs => rfl
  | cons a as ih =>
    intro y z hxy hyz
    cases y with
    | nil => exact absurd hxy (by simp [py_chars_lt])
    | cons b bs =>
      cases z with
      | nil => exact absurd hyz (by simp [py_chars_lt])
      | cons c cs =>
        simp only [py_chars_lt] at hxy hyz ⊢
        by_cases hab : a.toNat < b.toNat
        · have hnotcb : ¬ c.toNat < b.toNat := by
            intro hcb
            rw [if_neg (by omega), if_pos hcb] at hyz
            exact absurd hyz (by decide)
          rw [if_pos (by omega)]
        · by_cases hba : b.toNat < a.toNat
          · rw [if_neg hab, if_pos hba] at hxy
            exact absurd hxy (by decide)
          · rw [if_neg hab, if_neg hba] at hxy
            by_cases hbc : b.toNat < c.toNat
            · rw [if_pos (by omega)]
            · by_cases hcb : c.toNat < b.toNat
              · rw [if_neg hbc, if_pos hcb] at hyz
                exact absurd hyz (by decide)
              · rw [if_neg hbc, if_neg hcb] at hyz
                rw [if_neg (by omega), if_neg (by omega)]
                exact ih bs cs hxy hyz

/-- The negation of code-point comparison is transitive. -/
theorem py_chars_ge_trans : ∀ (x y z : List Char),
    py_chars_lt y x = false → py_chars_lt z y = false →
    py_chars_lt z x = false := by
  intro x
  induction x with
  | nil =>
    intro y z _ _
    cases z <;> rfl
  | cons a as ih =>
    intro y z h1 h2
    cases y with
    | nil => exact absurd h1 (by simp [py_chars_lt])
    | cons b bs =>
      cases z with
      | nil => exact absurd h2 (by simp [py_chars_lt])
      | cons c cs =>
        simp only [py_chars_lt] at h1 h2 ⊢
        by_cases hba : b.toNat < a.toNat
        · rw [if_pos hba] at h1
          exact absurd h1 (by decide)
        · by_cases hcb : c.toNat < b.toNat
          · rw [if_pos hcb] at h2
            exact absurd h2 (by decide)
          · by_cases hab : a.toNat < b.toNat
            · rw [if_neg (by omega), if_pos (by omega)]
            · by_cases hbc : b.toNat < c.toNat
              · rw [if_neg (by omega), if_pos (by omega)]
              · rw [if_neg hba, if_neg hab] at h1
                rw [if_neg hcb, if_neg hbc] at h2
                rw [if_neg (by omega), if_neg (by omega)]
                exact ih bs cs h1 h2

/-- Python string comparison is irreflexive. -/
theorem py_str_lt_irrefl (a : String) : py_str_lt a a = false :=
  py_chars_lt_irrefl a.data

/-- Python string comparison is transitive. -/
theorem py_str_lt_trans (a b c : String) (h1 : py_str_lt a b = true)
    (h2 : py_str_lt b c = true) : py_str_lt a c = true :=
  py_chars_lt_trans a.data b.data c.data h1 h2

/-- The negation of Python string comparison is transitive. -/
theorem py_str_ge_trans (a b c : String) (h1 : py_str_lt b a = false)
    (h2 : py_str_lt c b = false) : py_str_lt c a = false :=
  py_chars_ge_trans a.data b.data c.data h1 h2

/-- The scan champion is one of the scanned entries. -/
theorem py_max_entry_mem : ∀ (xs : List HistoryEntry) (best : HistoryEntry),
    py_max_entry best xs ∈ best :: xs := by
  intro xs
  induction xs with
  | nil =>
    intro best
    simp [py_max_entry]
  | cons x xs ih =>
    intro best
    rw [py_max_entry]
    by_cases hc : py_str_lt (ts_key best) (ts_key x) = true
    · rw [if_pos hc]
      exact List.mem_cons_of_mem best (ih x)
    · rw [if_neg hc]
      rcases List.mem_cons.mp (ih best) with h | h
      · rw [h]
        exact List.mem_cons_self _ _
      · exact List.mem_cons_of_mem best (List.mem_cons_of_mem x h)

/-- No scanned entry has a strictly greater timestamp key than the scan
champion. -/
theorem py_max_entry_ge : ∀ (xs : List HistoryEntry) (best e : HistoryEntry),
    e ∈ best :: xs →
    py_str_lt (ts_key (py_max_entry best xs)) (ts_key e) = false := by
  intro xs
  induction xs with
  | nil =>
    intro best e he
    rw [List.mem_singleton] at he
    subst he
    exact py_str_lt_irrefl _
  | cons x xs ih =>
    intro best e he
    rw [py_max_entry]
    by_cases hc : py_str_lt (ts_key best) (ts_key x) = true
    · rw [if_pos hc]
      rcases List.mem_cons.mp he with heb | hmem
      · rw [heb]
        have hMx : py_str_lt (ts_key (py_max_entry x xs)) (ts_key x) = false :=
          ih x x (List.mem_cons_self _ _)
        by_contra hMb
        rw [Bool.not_eq_false] at hMb
        have htr := py_str_lt_trans _ _ _ hMb hc
        rw [hMx] at htr
        exact absurd htr (by decide)
      · exact ih x e hmem
    · rw [if_neg hc]
      rcases List.mem_cons.mp he with heb | hmem
      · rw [heb]
        exact ih best best (List.mem_cons_self _ _)
      · rcases List.mem_cons.mp hmem with hex | hmem2
        · rw [hex]
          rw [Bool.not_eq_true] at hc
          exact py_str_ge_trans _ _ _ hc (ih best best (List.mem_cons_self _ _))
        · exact ih best e (List.mem_cons_of_mem best hmem2)

/-- Filtering an empty history yields nothing. -/
theorem ft_filtered_nil (task_type : Option String) :
    ft_filtered [] task_type = [] := by
  unfold ft_filtered
  split
  · rfl
  · split
    · rfl
    · rfl

/-- C9: `get_last_fine_tuning_time` returns `none` on an empty history or
when no entry matches the filter; otherwise it returns the timestamp of the
max-timestamp entry among the filtered entries — an entry of the filtered
set with no strictly greater timestamp key anywhere in it, selected by key
rather than by store position. -/
theorem claim_C9 (history : List HistoryEntry) (task_type : Option String) :
    (history = [] → get_last_fine_tuning_time history task_type = none) ∧
    (ft_filtered history task_type = [] →
      get_last_fine_tuning_time history task_type = none) ∧
    (∀ x xs, ft_filtered history task_type = x :: xs →
      get_last_fine_tuning_time history task_type =
        (py_max_entry x xs).timestamp ∧
      py_max_entry x xs ∈ x :: xs ∧
      ∀ e ∈ x :: xs,
        py_str_lt (ts_key (py_max_entry x xs)) (ts_key e) = false) := by
  refine ⟨?_, ?_, ?_⟩
  · intro h
    subst h
    rfl
  · intro h
    unfold get_last_fine_tuning_time
    split
    · rfl
    · rw [h]
  · intro x xs h
    have hne : history.isEmpty = false := by
      cases hh : history with
      | nil =>
        rw [hh, ft_filtered_nil] at h
        exact absurd h (by simp)
      | cons a as => rfl
    refine ⟨?_, py_max_entry_mem xs x, py_max_entry_ge xs x⟩
    unfold get_last_fine_tuning_time
    rw [hne]
    simp only [Bool.false_eq_true, if_false]
    rw [h]

/-- Witness for C9 on the out-of-order three-entry history: the anomaly
filter selects the mid-list entry with the max timestamp. -/
theorem claim_C9_witness :
    get_last_fine_tuning_time hist3 (some "anomaly") =
      some "2024-03-01T00:00:00" := by
  have h := (claim_C9 hist3 (some "anomaly")).2.2 hist_a1 [hist_a3] rfl
  rw [h.1]
  rfl

/-- Witness for the amended C3: a cycle with one fetched record persists its
non-empty result set as latest. -/
theorem claim_C3_amended_witness :
    (process_new_logs env_nginx500 kmeans_none resample_none st0 2).2.processed_data =
      some (process_new_logs env_nginx500 kmeans_none resample_none st0 2).1 :=
  ((claim_C3_amended env_nginx500 kmeans_none resample_none st0 2 rfl).1
    (by decide)).1

/-- Witness for C10: with a 60-second timeout and a first record at second
1000, the singleton batch is flushed even under a batch size of 100. -/
theorem claim_C10_witness :
    consume_step 100 60 (consumer_start_state (α := Nat)) 5 1000 =
      (⟨[], 1000⟩, some [5]) :=
  claim_C10.2.1 Nat 100 60 5 1000 (by decide)
